import Mathlib

/-
Verification of the SUN4I power HAL shim (src/power/power_sun4i.c) against its
natural-language specification.

The C file is shallowly embedded: each static function becomes a Lean
function over an explicit controller state (the static globals plus the
module struct fields) and an explicit environment record carrying the
results of the file-system calls (open/read/write) that the function
performs.  File contents and buffer contents are lists of characters; a
list never contains the NUL character unless written explicitly.  Side
effects on the file system are collected as a trace of events.
-/

namespace PowerSun4i

/-- The fixed control-file paths the C file opens.  Each constructor keeps
the name of the C path macro (or an evident name for the paths that
appear as inline literals in sun4i_power_init); `SysPath.lit` below maps
every constructor to the exact path literal of the source.  Using an
enumeration here keeps path comparisons in proofs constructor-level. -/
inductive SysPath where
  | SCALINGMAXFREQ
  | SCALING_GOVERNOR
  | BOOSTPULSE_INTERACTIVE
  | BOOSTPULSE_ONDEMAND
  | BOOSTPULSE_MALI
  | TIMER_RATE
  | MIN_SAMPLE_TIME
  | HISPEED_FREQ
  | GO_HISPEED_LOAD
  | ABOVE_HISPEED_DELAY
  | OND_BOOSTFREQ
  | OND_UP_THRESHOLD
  | OND_SAMPLING_RATE
  | MALI_BOOST_RATE
  | MALI_BOOST_DURATION

/-- The literal file path of each control file, exactly as written in
power_sun4i.c. -/
def SysPath.lit : SysPath → String
  | SCALINGMAXFREQ => "/sys/devices/system/cpu/cpu0/cpufreq/scaling_max_freq"
  | SCALING_GOVERNOR => "/sys/devices/system/cpu/cpu0/cpufreq/scaling_governor"
  | BOOSTPULSE_INTERACTIVE => "/sys/devices/system/cpu/cpufreq/interactive/boostpulse"
  | BOOSTPULSE_ONDEMAND => "/sys/devices/system/cpu/cpufreq/ondemand/boostpulse"
  | BOOSTPULSE_MALI => "/sys/devices/platform/mali_dev.0/boostpulse"
  | TIMER_RATE => "/sys/devices/system/cpu/cpufreq/interactive/timer_rate"
  | MIN_SAMPLE_TIME => "/sys/devices/system/cpu/cpufreq/interactive/min_sample_time"
  | HISPEED_FREQ => "/sys/devices/system/cpu/cpufreq/interactive/hispeed_freq"
  | GO_HISPEED_LOAD => "/sys/devices/system/cpu/cpufreq/interactive/go_hispeed_load"
  | ABOVE_HISPEED_DELAY => "/sys/devices/system/cpu/cpufreq/interactive/above_hispeed_delay"
  | OND_BOOSTFREQ => "/sys/devices/system/cpu/cpufreq/ondemand/boostfreq"
  | OND_UP_THRESHOLD => "/sys/devices/system/cpu/cpufreq/ondemand/up_threshold"
  | OND_SAMPLING_RATE => "/sys/devices/system/cpu/cpufreq/ondemand/sampling_rate"
  | MALI_BOOST_RATE => "/sys/module/mali/parameters/mali_boost_rate"
  | MALI_BOOST_DURATION => "/sys/module/mali/parameters/mali_boost_duration"

open SysPath

/-- MAX_BUF_SZ macro: size of the static frequency buffers. -/
def MAX_BUF_SZ : Nat := 20

/-- Observable file-system side effects of an operation.
`writeAttr p s` records a sysfs_write(p, s) invocation, `fdWrite fd s`
records a write(2) on the cached boost-pulse descriptor, and
`openAttempt p` records an open(p, O_WRONLY) in boostpulse_open. -/
inductive Ev where
  | writeAttr (path : SysPath) (s : List Char)
  | fdWrite (fd : Int) (s : List Char)
  | openAttempt (path : SysPath)

/-- Undefined behaviour marker: the source dereferences the uninitialized
local pointer `sun4i` in sun4i_power_init when the governor is unreadable,
so that path has no defined post-state. -/
inductive UB where
  | uninitDeref

/-- The controller state: the three static buffers of power_sun4i.c
(values of the C strings stored in them) plus the two mutable fields of
struct sun4i_power_module. -/
structure PState where
  screen_off_max_freq : List Char
  scaling_max_freq : List Char
  current_governor : List Char
  boostpulse_fd : Int
  boostpulse_warned : Bool

/-- Initial values of the statics and of HAL_MODULE_INFO_SYM. -/
def initialState : PState :=
  { screen_off_max_freq := "696000".toList
  , scaling_max_freq := "1008000".toList
  , current_governor := []
  , boostpulse_fd := -1
  , boostpulse_warned := false }

/-- Environment of one operation: the outcomes the kernel hands back for
each file-system call the operation can make.  `govOpenOk`/`govRead`
describe open and read of SCALING_GOVERNOR, `maxOpenOk`/`maxRead` the
same for SCALINGMAXFREQ (`none` in a read field = read(2) failed),
`boostWriteLen` is the return value of write(2) on the boost-pulse
descriptor, `errText` is what strerror_r stores, and the two fd fields
are the return values of open(2) on the two boost-pulse paths. -/
structure Env where
  govOpenOk : Bool
  govRead : Option (List Char)
  maxOpenOk : Bool
  maxRead : Option (List Char)
  boostWriteLen : Int
  errText : List Char
  openInteractiveFd : Int
  openOndemandFd : Int

/-- Result of sysfs_read: the C return value (0 or -1) and the bytes the
call stored into the destination buffer, starting at index 0. -/
structure ReadOut where
  ret : Int
  written : List Char

/-- sysfs_read(path, s, num_bytes): on open failure or read failure it
returns -1 having stored nothing; otherwise read(2) delivers at most
num_bytes - 1 bytes of the file content and the code appends a NUL.
Modelled for num_bytes >= 1, the regime of both call sites (20 and 80). -/
def sysfs_read (openOk : Bool) (content : Option (List Char)) (num_bytes : Nat) : ReadOut :=
  if openOk = false then { ret := -1, written := [] }
  else
    match content with
    | none => { ret := -1, written := [] }
    | some c => { ret := 0, written := c.take (num_bytes - 1) ++ ['\x00'] }

/-- Value of a C string stored in a buffer: the characters before the
first NUL. -/
def cstr (l : List Char) : List Char := l.takeWhile (fun c => c != '\x00')

/-- sysfs_write(path, s): opens the path write-only and writes the string;
failures are logged and ignored.  We record the invocation as one event. -/
def sysfs_write (path : SysPath) (s : List Char) : List Ev := [Ev.writeAttr path s]

/-- The character class stripped by get_scaling_governor. -/
def isNlCr (c : Char) : Bool := c == '\n' || c == '\r'

/-- One step of the trimming loop of get_scaling_governor, fuelled by the
index under examination plus one: `govTrimAux g (n+1)` examines g[n]; if
it is a newline or carriage return the loop stores NUL there (truncating
the string to its first n characters) and moves left, otherwise it
stops. -/
def govTrimAux : List Char → Nat → List Char
  | g, 0 => g
  | g, n + 1 =>
    match g[n]? with
    | some c => if isNlCr c then govTrimAux (g.take n) n else g
    | none => g

/-- The trimming loop of get_scaling_governor, started at index
strlen(governor) - 1. -/
def govTrim (g : List Char) : List Char := govTrimAux g g.length

/-- get_scaling_governor(governor, size): sysfs_read of SCALING_GOVERNOR
into the buffer, then the trailing-newline trimming loop; returns -1
(here: none) when the read failed, else the normalized token. -/
def get_scaling_governor (openOk : Bool) (content : Option (List Char)) (size : Nat) :
    Option (List Char) :=
  let out := sysfs_read openOk content size
  if out.ret = -1 then none
  else some (govTrim (cstr out.written))

/-- sun4i_power_init: read and trim the governor.  On read failure the C
code executes `sun4i->boostpulse_warned = 1` through the uninitialized
local pointer `sun4i` (line 119), which is undefined behaviour, so that
path yields no defined post-state.  On success it caches the governor
(memcpy of MAX_BUF_SZ bytes; for governors of 19 characters or fewer the
stored C string is the governor itself, longer governors are truncated),
then issues the governor-specific tuning writes and unconditionally the
two GPU tuning writes. -/
def sun4i_power_init (st : PState) (env : Env) : Except UB (PState × List Ev) :=
  match get_scaling_governor env.govOpenOk env.govRead 80 with
  | none => Except.error UB.uninitDeref
  | some governor =>
    let st1 := { st with current_governor := governor.take MAX_BUF_SZ }
    let tuning : List Ev :=
      if governor = "interactive".toList then
        sysfs_write TIMER_RATE "20000".toList ++
        sysfs_write MIN_SAMPLE_TIME "60000".toList ++
        sysfs_write HISPEED_FREQ "696000".toList ++
        sysfs_write GO_HISPEED_LOAD "50".toList ++
        sysfs_write ABOVE_HISPEED_DELAY "100000".toList
      else if governor = "ondemand".toList then
        sysfs_write OND_BOOSTFREQ "696000".toList ++
        sysfs_write OND_UP_THRESHOLD "70".toList ++
        sysfs_write OND_SAMPLING_RATE "50000".toList
      else []
    Except.ok (st1, tuning ++
      sysfs_write MALI_BOOST_RATE "1200".toList ++
      sysfs_write MALI_BOOST_DURATION "500".toList)

/-- boostpulse_open: under the lock, if no descriptor is cached, re-read
the governor (on failure set the warned flag and keep the invalid fd);
otherwise re-run sun4i_power_init when the fresh governor is not a
C-string prefix of the cached one (strncmp with n = strlen(governor)),
open the governor-specific boost-pulse path, and set the warned flag if
the open failed and it was not set.  Returns the resulting state, the
returned descriptor and the trace.  The re-initialization reuses the
same environment snapshot, matching the immediate second read of the
same file in the source. -/
def boostpulse_open (st : PState) (env : Env) : Except UB (PState × Int × List Ev) :=
  if st.boostpulse_fd < 0 then
    match get_scaling_governor env.govOpenOk env.govRead 80 with
    | none => Except.ok ({ st with boostpulse_warned := true }, st.boostpulse_fd, [])
    | some governor =>
      let initRes : Except UB (PState × List Ev) :=
        if governor.isPrefixOf st.current_governor then Except.ok (st, [])
        else sun4i_power_init st env
      match initRes with
      | Except.error e => Except.error e
      | Except.ok (st1, tr1) =>
        let fdtr : Int × List Ev :=
          if governor = "interactive".toList then
            (env.openInteractiveFd, [Ev.openAttempt BOOSTPULSE_INTERACTIVE])
          else if governor = "ondemand".toList then
            (env.openOndemandFd, [Ev.openAttempt BOOSTPULSE_ONDEMAND])
          else (st1.boostpulse_fd, [])
        let st2 := { st1 with boostpulse_fd := fdtr.1 }
        let st3 :=
          if fdtr.1 < 0 ∧ st2.boostpulse_warned = false then
            { st2 with boostpulse_warned := true }
          else st2
        Except.ok (st3, fdtr.1, tr1 ++ fdtr.2)
  else Except.ok (st, st.boostpulse_fd, [])

/-- The hint kinds of power_hint_t that the switch distinguishes. -/
inductive Hint where
  | interaction
  | cpu_boost
  | vsync
  | other

/-- snprintf(buf, sizeof(buf), "%d", duration) with
`duration = data ? (int) data : 1`. -/
def durationText (data : Option Int) : List Char :=
  (toString (match data with | some v => v | none => 1)).toList

/-- sun4i_power_hint: for interaction and CPU-boost hints, acquire the
boost-pulse descriptor; if valid, write the duration text to it.  On
write failure strerror_r overwrites buf with the error message
(truncated to the 80-byte buffer), the descriptor is closed and
invalidated and the warned flag cleared; the final sysfs_write to
BOOSTPULSE_MALI sends whatever buf then holds.  Vsync and other hints do
nothing. -/
def sun4i_power_hint (st : PState) (env : Env) (hint : Hint) (data : Option Int) :
    Except UB (PState × List Ev) :=
  match hint with
  | Hint.interaction | Hint.cpu_boost =>
    match boostpulse_open st env with
    | Except.error e => Except.error e
    | Except.ok (st1, fd, tr1) =>
      if 0 ≤ fd then
        let buf := durationText data
        let tr2 := tr1 ++ [Ev.fdWrite st1.boostpulse_fd buf]
        if env.boostWriteLen < 0 then
          let buf2 := env.errText.take 79
          Except.ok ({ st1 with boostpulse_fd := -1, boostpulse_warned := false },
            tr2 ++ sysfs_write BOOSTPULSE_MALI buf2)
        else
          Except.ok (st1, tr2 ++ sysfs_write BOOSTPULSE_MALI buf)
      else Except.ok (st1, tr1)
  | Hint.vsync => Except.ok (st, [])
  | Hint.other => Except.ok (st, [])

/-- sun4i_power_set_interactive: on screen-off, read the current max
scaling frequency; if the read succeeded and the value does not start
with the screen-off frequency text (strncmp over
strlen(screen_off_max_freq) characters), cache it; then write the
screen-off frequency.  On screen-on, write the cached frequency back. -/
def sun4i_power_set_interactive (st : PState) (env : Env) (screenOn : Bool) :
    PState × List Ev :=
  if screenOn = false then
    let out := sysfs_read env.maxOpenOk env.maxRead MAX_BUF_SZ
    let buf := cstr out.written
    let st1 :=
      if out.ret ≠ -1 ∧ st.screen_off_max_freq.isPrefixOf buf = false then
        { st with scaling_max_freq := buf }
      else st
    (st1, sysfs_write SCALINGMAXFREQ st.screen_off_max_freq)
  else
    (st, sysfs_write SCALINGMAXFREQ st.scaling_max_freq)

/-! Helper lemmas about the trimming loop. -/

lemma govTrim_concat (l : List Char) (a : Char) :
    govTrim (l ++ [a]) = if isNlCr a then govTrim l else l ++ [a] := by
  have h1 : (l ++ [a]).length = l.length + 1 := by simp
  unfold govTrim
  rw [h1]
  simp only [govTrimAux, List.getElem?_concat_length, List.take_left]

lemma govTrim_eq_dropTrailing (g : List Char) :
    govTrim g = (g.reverse.dropWhile isNlCr).reverse := by
  induction g using List.reverseRecOn with
  | nil => rfl
  | append_singleton l a ih =>
    rw [govTrim_concat]
    by_cases h : isNlCr a
    · simp [h, ih]
    · simp [h]

/-- C7: a governor-name string read from the control file is normalized by
removing exactly its maximal trailing run of newline and carriage-return
characters: the trimmed token equals the string with that run dropped
from the right, the string is the trimmed token followed by a tail made
only of newline and carriage-return characters, and the trimmed token
itself does not end in such a character. -/
theorem C7_trailing_newline_strip (g : List Char) :
    govTrim g = (g.reverse.dropWhile isNlCr).reverse ∧
    (∃ t, g = govTrim g ++ t ∧ ∀ c ∈ t, isNlCr c = true) ∧
    ∀ c, (govTrim g).getLast? = some c → isNlCr c = false := by
  have he := govTrim_eq_dropTrailing g
  refine ⟨he, ⟨(g.reverse.takeWhile isNlCr).reverse, ?_, ?_⟩, ?_⟩
  · rw [he]
    conv_lhs => rw [← List.reverse_reverse g,
      ← List.takeWhile_append_dropWhile (p := isNlCr) (l := g.reverse)]
    rw [List.reverse_append]
  · intro c hc
    rw [List.mem_reverse] at hc
    exact List.mem_takeWhile_imp hc
  · intro c hc
    rw [he, List.getLast?_reverse] at hc
    have hd := List.head?_dropWhile_not isNlCr g.reverse
    rw [hc] at hd
    simpa using hd

/-! Helper lemmas about C-string values, and a baseline environment used
by concrete witnesses. -/

lemma cstr_append_nul (l : List Char) (h : ∀ c ∈ l, c ≠ '\x00') :
    cstr (l ++ ['\x00']) = l := by
  induction l with
  | nil => rfl
  | cons a t ih =>
    have ha : (a != '\x00') = true := by
      simpa using h a (List.mem_cons_self a t)
    have ht := ih fun c hc => h c (List.mem_cons_of_mem a hc)
    simp only [cstr] at ht ⊢
    simp [List.takeWhile_cons, ha, ht]

/-- A fully specified environment: every file call succeeds, the governor
file holds "interactive" with a trailing newline, the max-frequency file
holds the default screen-on frequency. -/
def env0 : Env :=
  { govOpenOk := true
  , govRead := some ("interactive\n".toList)
  , maxOpenOk := true
  , maxRead := some ("1008000".toList)
  , boostWriteLen := 1
  , errText := "Input/output error".toList
  , openInteractiveFd := 3
  , openOndemandFd := -1 }

/-- C9: sysfs_read with a destination buffer of capacity num_bytes stores
at most num_bytes bytes into it (at most num_bytes - 1 data bytes plus
the terminating NUL), and whenever it returns success the stored bytes
end in NUL; hence the governor read cannot overflow the buffer handed to
it. -/
theorem C9_sysfs_read_bounded (openOk : Bool) (content : Option (List Char))
    (num_bytes : Nat) (h : 1 ≤ num_bytes) :
    (sysfs_read openOk content num_bytes).written.length ≤ num_bytes ∧
    ((sysfs_read openOk content num_bytes).ret = 0 →
      (sysfs_read openOk content num_bytes).written.getLast? = some '\x00') := by
  unfold sysfs_read
  cases openOk with
  | false => simp
  | true =>
    cases content with
    | none => simp
    | some c =>
      refine ⟨?_, fun _ => ?_⟩
      · simp only [Bool.true_eq_false, if_false, List.length_append,
          List.length_take, List.length_singleton]
        calc min (num_bytes - 1) c.length + 1
            ≤ (num_bytes - 1) + 1 := Nat.succ_le_succ (Nat.min_le_left _ _)
          _ = num_bytes := Nat.sub_add_cancel h
      · simp

/-- Witness for C9 at the shape of the get_scaling_governor call site. -/
theorem C9_sysfs_read_bounded_witness :
    (sysfs_read true (some ("interactive\n".toList)) 20).written.length ≤ 20 ∧
    ((sysfs_read true (some ("interactive\n".toList)) 20).ret = 0 →
      (sysfs_read true (some ("interactive\n".toList)) 20).written.getLast? = some '\x00') :=
  C9_sysfs_read_bounded true (some ("interactive\n".toList)) 20 (by decide)

/-- C10: a screen-off transition whose read of the max scaling frequency
fails (open failure or read failure) leaves the whole controller state,
in particular the cached restore frequency, unchanged, and still writes
the screen-off frequency to the max scaling frequency file. -/
theorem C10_screen_off_read_failure (st : PState) (env : Env)
    (hfail : env.maxOpenOk = false ∨ env.maxRead = none) :
    sun4i_power_set_interactive st env false =
      (st, [Ev.writeAttr SCALINGMAXFREQ st.screen_off_max_freq]) := by
  unfold sun4i_power_set_interactive sysfs_read sysfs_write
  rcases hfail with h | h
  · simp [h]
  · cases hop : env.maxOpenOk <;> simp [h, hop]

/-- Witness for C10: open failure on the max-frequency file. -/
theorem C10_screen_off_read_failure_witness :
    sun4i_power_set_interactive initialState { env0 with maxOpenOk := false } false =
      (initialState, [Ev.writeAttr SCALINGMAXFREQ initialState.screen_off_max_freq]) :=
  C10_screen_off_read_failure initialState { env0 with maxOpenOk := false } (Or.inl rfl)

/-- C4: when the max-frequency file already reads as the screen-off
frequency (for instance on the second of two consecutive screen-off
calls), the screen-off transition leaves the controller state, in
particular the cached restore frequency, unchanged. -/
theorem C4_screen_off_idempotence_guard (st : PState) (env : Env)
    (hso : st.screen_off_max_freq = "696000".toList)
    (hopen : env.maxOpenOk = true)
    (hread : env.maxRead = some ("696000".toList)) :
    (sun4i_power_set_interactive st env false).1 = st := by
  have hr : sysfs_read env.maxOpenOk env.maxRead MAX_BUF_SZ =
      { ret := 0, written := "696000".toList ++ ['\x00'] } := by
    rw [hopen, hread]
    rfl
  unfold sun4i_power_set_interactive
  rw [hr, hso]
  have hcond : ¬ ((({ ret := 0, written := "696000".toList ++ ['\x00'] } : ReadOut).ret ≠ -1) ∧
      ("696000".toList).isPrefixOf
        (cstr ({ ret := 0, written := "696000".toList ++ ['\x00'] } : ReadOut).written) = false) := by
    decide
  simp only [if_neg hcond]
  simp

/-- Witness for C4: second consecutive screen-off call on the initial
state. -/
theorem C4_screen_off_idempotence_guard_witness :
    (sun4i_power_set_interactive initialState { env0 with maxRead := some ("696000".toList) } false).1
      = initialState :=
  C4_screen_off_idempotence_guard initialState { env0 with maxRead := some ("696000".toList) }
    rfl rfl rfl

/-- C3 counterexample: with the initial cache "1008000", a screen-off call
that reads the active value V = "696000" (the screen-off frequency
itself, a successful read) followed by a screen-on call writes back
"1008000", not V: the prefix guard in the screen-off path skips caching
any value that starts with the screen-off frequency text, so the claim
fails for such V. -/
theorem C3_counterexample :
    (sun4i_power_set_interactive
      (sun4i_power_set_interactive initialState
        { env0 with maxRead := some ("696000".toList) } false).1
      env0 true).2 = [Ev.writeAttr SCALINGMAXFREQ ("1008000".toList)] ∧
    "1008000".toList ≠ "696000".toList := by
  constructor
  · rfl
  · decide

/-- C3 (amended): for every frequency value V that is a NUL-free string of
at most 19 characters and does not start with the screen-off frequency
text, if the screen-off read succeeds and returns V, the subsequent
screen-on call writes back exactly V to the max scaling frequency
file. -/
theorem C3_restore_exact_frequency (st : PState) (env env2 : Env) (V : List Char)
    (hopen : env.maxOpenOk = true) (hread : env.maxRead = some V)
    (hlen : V.length ≤ 19) (hnul : ∀ c ∈ V, c ≠ '\x00')
    (hpre : st.screen_off_max_freq.isPrefixOf V = false) :
    (sun4i_power_set_interactive
      (sun4i_power_set_interactive st env false).1 env2 true).2 =
      [Ev.writeAttr SCALINGMAXFREQ V] := by
  have htake : V.take (MAX_BUF_SZ - 1) = V :=
    List.take_of_length_le (by simpa [MAX_BUF_SZ] using hlen)
  have hc : cstr (V ++ ['\x00']) = V := cstr_append_nul V hnul
  unfold sun4i_power_set_interactive sysfs_read sysfs_write
  simp [hopen, hread, htake, hc, hpre]

/-- Witness for the amended C3: V = "816000" is cached on screen-off and
written back verbatim on screen-on. -/
theorem C3_restore_exact_frequency_witness :
    (sun4i_power_set_interactive
      (sun4i_power_set_interactive initialState
        { env0 with maxRead := some ("816000".toList) } false).1 env0 true).2 =
      [Ev.writeAttr SCALINGMAXFREQ ("816000".toList)] :=
  C3_restore_exact_frequency initialState { env0 with maxRead := some ("816000".toList) }
    env0 ("816000".toList) rfl rfl (by decide) (by decide) (by decide)

/-- The exact write sequence of sun4i_power_init under the interactive
governor: five interactive tuning writes followed by the two GPU tuning
writes. -/
def interactiveInitTrace : List Ev :=
  [Ev.writeAttr TIMER_RATE "20000".toList,
   Ev.writeAttr MIN_SAMPLE_TIME "60000".toList,
   Ev.writeAttr HISPEED_FREQ "696000".toList,
   Ev.writeAttr GO_HISPEED_LOAD "50".toList,
   Ev.writeAttr ABOVE_HISPEED_DELAY "100000".toList,
   Ev.writeAttr MALI_BOOST_RATE "1200".toList,
   Ev.writeAttr MALI_BOOST_DURATION "500".toList]

/-- Does an event write to one of the three on-demand tuning paths? -/
def evWritesOndemand : Ev → Bool
  | Ev.writeAttr OND_BOOSTFREQ _ => true
  | Ev.writeAttr OND_UP_THRESHOLD _ => true
  | Ev.writeAttr OND_SAMPLING_RATE _ => true
  | _ => false

/-- Shared computation: sun4i_power_init under the interactive governor. -/
lemma init_interactive_eq (st : PState) (env : Env)
    (hgov : get_scaling_governor env.govOpenOk env.govRead 80 =
      some ("interactive".toList)) :
    sun4i_power_init st env =
      Except.ok ({ st with current_governor := "interactive".toList },
        interactiveInitTrace) := by
  unfold sun4i_power_init
  rw [hgov]
  simp [sysfs_write, interactiveInitTrace, MAX_BUF_SZ]

/-- C2: when the governor read fails, the source stores 1 through the
uninitialized local pointer `sun4i` (power_sun4i.c line 119) before
returning; that store is undefined behaviour, so the operation has no
defined post-state — in particular it does not set the warned-once flag
of the actual controller, contrary to the claim.  The theorem evaluates
the model at the failing input: the call ends in the
uninitialized-dereference fault instead of a state with the flag set. -/
theorem C2_init_read_failure_faults :
    sun4i_power_init initialState { env0 with govOpenOk := false } =
      Except.error UB.uninitDeref := rfl

/-- C6: with the governor reading as "interactive", sun4i_power_init
caches the governor and issues exactly the five interactive tuning
writes with their literal values followed by the two GPU tuning writes,
and none of the issued writes targets an on-demand tuning path. -/
theorem C6_interactive_tuning_writes (st : PState) (env : Env)
    (hgov : get_scaling_governor env.govOpenOk env.govRead 80 =
      some ("interactive".toList)) :
    sun4i_power_init st env =
      Except.ok ({ st with current_governor := "interactive".toList },
        interactiveInitTrace) ∧
    ∀ e ∈ interactiveInitTrace, evWritesOndemand e = false := by
  constructor
  · exact init_interactive_eq st env hgov
  · decide

/-- Witness for C6: the baseline environment reads "interactive\n". -/
theorem C6_interactive_tuning_writes_witness :
    sun4i_power_init initialState env0 =
      Except.ok ({ initialState with current_governor := "interactive".toList },
        interactiveInitTrace) ∧
    ∀ e ∈ interactiveInitTrace, evWritesOndemand e = false :=
  C6_interactive_tuning_writes initialState env0 rfl

/-- C8: with a successfully read governor that is neither "interactive"
nor "ondemand", sun4i_power_init performs no governor-specific tuning
write and still issues exactly the two GPU tuning writes with their
fixed literal values. -/
theorem C8_unrecognized_governor_gpu_only (st : PState) (env : Env) (g : List Char)
    (hgov : get_scaling_governor env.govOpenOk env.govRead 80 = some g)
    (h1 : g ≠ "interactive".toList) (h2 : g ≠ "ondemand".toList) :
    sun4i_power_init st env =
      Except.ok ({ st with current_governor := g.take MAX_BUF_SZ },
        [Ev.writeAttr MALI_BOOST_RATE "1200".toList,
         Ev.writeAttr MALI_BOOST_DURATION "500".toList]) := by
  have h1' : g ≠ ['i', 'n', 't', 'e', 'r', 'a', 'c', 't', 'i', 'v', 'e'] := by
    simpa using h1
  have h2' : g ≠ ['o', 'n', 'd', 'e', 'm', 'a', 'n', 'd'] := by
    simpa using h2
  unfold sun4i_power_init
  rw [hgov]
  simp [h1', h2', sysfs_write]

/-- Witness for C8: the governor reads as "performance". -/
theorem C8_unrecognized_governor_gpu_only_witness :
    sun4i_power_init initialState { env0 with govRead := some ("performance\n".toList) } =
      Except.ok ({ initialState with
          current_governor := ("performance".toList).take MAX_BUF_SZ },
        [Ev.writeAttr MALI_BOOST_RATE "1200".toList,
         Ev.writeAttr MALI_BOOST_DURATION "500".toList]) :=
  C8_unrecognized_governor_gpu_only initialState
    { env0 with govRead := some ("performance\n".toList) } ("performance".toList)
    rfl (by decide) (by decide)

/-- Shared computation: boostpulse_open with a cached valid descriptor is
a no-op returning that descriptor. -/
lemma boostpulse_open_cached (st : PState) (env : Env)
    (hfd : ¬ st.boostpulse_fd < 0) :
    boostpulse_open st env = Except.ok (st, st.boostpulse_fd, []) := by
  unfold boostpulse_open
  rw [if_neg hfd]

/-- Shared computation: boostpulse_open with an invalid cached descriptor
and a governor reading as "interactive" attempts to open the interactive
boost-pulse path. -/
lemma boostpulse_open_attempts_interactive (st : PState) (env : Env)
    (hfd : st.boostpulse_fd < 0)
    (hgov : get_scaling_governor env.govOpenOk env.govRead 80 =
      some ("interactive".toList)) :
    ∃ st3 fd3 tr3, boostpulse_open st env = Except.ok (st3, fd3, tr3) ∧
      Ev.openAttempt BOOSTPULSE_INTERACTIVE ∈ tr3 := by
  unfold boostpulse_open
  rw [if_pos hfd, hgov]
  dsimp only
  by_cases hp : ("interactive".toList).isPrefixOf st.current_governor = true
  · rw [if_pos hp]
    exact ⟨_, _, _, rfl, by simp⟩
  · rw [if_neg hp, init_interactive_eq st env hgov]
    exact ⟨_, _, _, rfl, by simp [interactiveInitTrace]⟩

/-- C1: an interaction hint with an open boost-pulse descriptor whose
write fails sends the strerror_r message text, not the duration text, to
the GPU boost-pulse file: the write-failure branch reuses buf for the
error message before the final sysfs_write(BOOSTPULSE_MALI, buf).  The
theorem evaluates the model at the failing input (duration 1, write
failure with message "Input/output error") and shows the GPU write
carries the error text, which differs from the duration text. -/
theorem C1_mali_write_carries_error_text :
    sun4i_power_hint { initialState with boostpulse_fd := 3 }
        { env0 with boostWriteLen := -1 } Hint.interaction none =
      Except.ok (initialState,
        [Ev.fdWrite 3 ("1".toList),
         Ev.writeAttr BOOSTPULSE_MALI ("Input/output error".toList)]) ∧
    "Input/output error".toList ≠ "1".toList := by
  constructor
  · rfl
  · decide

/-- C5: for an interaction or CPU-boost hint delivered while the
boost-pulse descriptor is open, a failing write(2) on the descriptor
makes the operation close it, reset it to the unopened sentinel -1 and
clear the warned-once flag; a subsequent boost-pulse acquisition (here
under a governor reading as "interactive") then attempts to reopen the
boost-pulse control file from scratch. -/
theorem C5_write_failure_self_heal (st : PState) (env env2 : Env) (hint : Hint)
    (d : Option Int)
    (hk : hint = Hint.interaction ∨ hint = Hint.cpu_boost)
    (hfd : 0 ≤ st.boostpulse_fd)
    (hw : env.boostWriteLen < 0)
    (hgov : get_scaling_governor env2.govOpenOk env2.govRead 80 =
      some ("interactive".toList)) :
    sun4i_power_hint st env hint d =
      Except.ok ({ st with boostpulse_fd := -1, boostpulse_warned := false },
        [Ev.fdWrite st.boostpulse_fd (durationText d),
         Ev.writeAttr BOOSTPULSE_MALI (env.errText.take 79)]) ∧
    ∃ st3 fd3 tr3,
      boostpulse_open { st with boostpulse_fd := -1, boostpulse_warned := false } env2 =
        Except.ok (st3, fd3, tr3) ∧
      Ev.openAttempt BOOSTPULSE_INTERACTIVE ∈ tr3 := by
  have hnl : ¬ st.boostpulse_fd < 0 := not_lt.mpr hfd
  constructor
  · rcases hk with h | h <;> subst h <;>
    · unfold sun4i_power_hint
      rw [boostpulse_open_cached st env hnl]
      simp [hfd, hw, sysfs_write]
  · exact boostpulse_open_attempts_interactive _ env2 (by simp) hgov

/-- Controller state for the C5 witness: descriptor 3 cached, interactive
governor cached. -/
def c5State : PState :=
  { initialState with boostpulse_fd := 3, current_governor := "interactive".toList }

/-- Environment for the C5 witness: the boost-pulse write fails. -/
def c5Env : Env := { env0 with boostWriteLen := -1 }

/-- Witness for C5: a CPU-boost hint of 500 ms whose boost-pulse write
fails, followed by a reopen attempt under the interactive governor. -/
theorem C5_write_failure_self_heal_witness :
    sun4i_power_hint c5State c5Env Hint.cpu_boost (some 500) =
      Except.ok ({ c5State with boostpulse_fd := -1, boostpulse_warned := false },
        [Ev.fdWrite c5State.boostpulse_fd (durationText (some 500)),
         Ev.writeAttr BOOSTPULSE_MALI (c5Env.errText.take 79)]) ∧
    ∃ st3 fd3 tr3,
      boostpulse_open { c5State with boostpulse_fd := -1, boostpulse_warned := false } env0 =
        Except.ok (st3, fd3, tr3) ∧
      Ev.openAttempt BOOSTPULSE_INTERACTIVE ∈ tr3 :=
  C5_write_failure_self_heal c5State c5Env env0 Hint.cpu_boost (some 500)
    (Or.inr rfl) (by decide) (by decide) rfl

end PowerSun4i
